import Mathlib

/-!
Shallow embedding of the client connection and session-state manager of
`packages/web/src/lib/store.ts` (the zustand store `useStore` together with
its helper functions `addMessageWithPaneRouting` and `handleServerMessage`).

Modelling conventions:
* Nullable / optional TypeScript strings become `Option String`; JavaScript
  truthiness of such a value (`s && ...` is skipped for `undefined`, `null`
  and `""`) is the predicate `truthyS`.
* `Date` timestamps become `Nat` milliseconds; a `new Date()` inside a
  handler becomes an explicit `now : Nat` argument, and `generateId()` an
  explicit injected fresh-id source `genId : Nat -> String`.
* The WebSocket handle is abstracted to the two observable booleans the code
  branches on (`hasWs`: the `ws` field is non-null; `wsOpen`: the socket's
  `readyState` is `OPEN`).  `ws.send`, the opening of a new socket and the
  scheduling of a reconnect timer become an explicit `Effects` record
  returned next to the successor state.
* `localStorage` is carried in the state as `storedToken` / `storedUserId`;
  the zustand fields `token` / `userId` are separate, as in the source.
* `JSON.parse` of nested tool payloads, `Number.prototype.toFixed` and
  date-string parsing are platform primitives; their outcome is carried as
  already-decoded fields of the inbound row / payload (a `none` models a
  failed or absent parse, a pre-formatted string models the `toFixed`
  output).
-/

namespace Apas

/-- JavaScript string truthiness: `undefined`, `null` and `""` are falsy. -/
def truthyS : Option String → Bool
  | none => false
  | some s => s != ""

/-- The `OutputType` union of `store.ts`; the `input: unknown` of a tool use
is carried as its JSON text. -/
inductive OutputType where
  | text
  | code (language : Option String)
  | toolUse (tool : String) (input : String)
  | toolResult (tool : String) (success : Bool)
  | approvalRequest (toolCallId : String) (tool : String) (description : String)
  | system
  | error
  deriving DecidableEq, Repr

/-- The `Message` interface of `store.ts`. -/
structure Message where
  id : String
  role : String
  content : String
  timestamp : Nat
  outputType : OutputType
  deriving DecidableEq, Repr

/-- The claim-relevant portion of the zustand `AppState`, together with the
`localStorage` cell the store reads and writes. -/
structure AppState where
  storedToken : Option String := none
  storedUserId : Option String := none
  token : Option String := none
  userId : Option String := none
  isAuthenticated : Bool := false
  connected : Bool := false
  sessionId : Option String := none
  hasWs : Bool := false
  wsOpen : Bool := false
  isAttached : Bool := false
  reconnectAttempts : Nat := 0
  reconnectTimeout : Bool := false
  visibilityHandler : Bool := false
  cliClients : List String := []
  messages : List Message := []
  hasMoreMessages : Bool := false
  isLoadingMore : Bool := false
  isDualPane : Bool := false
  deadloopMessages : List Message := []
  interactiveMessages : List Message := []
  deriving DecidableEq, Repr

/-- The store's initial state (all zustand initial field values). -/
def initialState : AppState := {}

/-- Outbound wire commands (`ws.send(JSON.stringify(...))`) used by the
embedded operations. -/
inductive Command where
  | authenticate (token : String)
  | attachSession (sessionId : String)
  | getSessionMessages (sessionId : String) (limit : Option Nat) (beforeId : Option String)
  | startSession (cliClientId : Option String)
  | input (text : String) (paneType : Option String)
  | listCliClients
  | listSessions
  deriving DecidableEq, Repr

/-- Observable side effects of one operation: commands sent over the socket,
whether a fresh transport was opened, and the delay of a reconnect timer
scheduled by `setTimeout`, if any. -/
structure Effects where
  sent : List Command := []
  openedTransport : Bool := false
  scheduledReconnect : Option Nat := none
  deriving DecidableEq, Repr

/-- No side effects. -/
def Effects.noEff : Effects := {}

/-- Destination pane of a routed conversation entry. -/
inductive Dest where
  | main
  | deadloop
  | interactive
  deriving DecidableEq, Repr

/-- The pane a wire pane tag selects: the two known tags name their panes,
everything else (absent, empty or unrecognized) lands in the main pane. -/
def routeDest (tag : Option String) : Dest :=
  if tag == some ("deadloop") then Dest.deadloop
  else if tag == some ("interactive") then Dest.interactive
  else Dest.main

/-- Append a message to one pane of the state. -/
def appendToPane (st : AppState) (d : Dest) (m : Message) : AppState :=
  match d with
  | Dest.main => { st with messages := st.messages ++ [m] }
  | Dest.deadloop => { st with deadloopMessages := st.deadloopMessages ++ [m] }
  | Dest.interactive => { st with interactiveMessages := st.interactiveMessages ++ [m] }

/-- `addMessageWithPaneRouting` from `store.ts`. -/
def addMessageWithPaneRouting (message : Message) (paneType : Option String)
    (st : AppState) : AppState :=
  let isDualPane := st.isDualPane
  -- Auto-detect dual pane mode when we receive a pane_type
  let p : AppState × Bool :=
    if truthyS paneType && !isDualPane then ({ st with isDualPane := true }, true)
    else (st, isDualPane)
  let st := p.1
  let isDualPane := p.2
  if isDualPane && truthyS paneType then
    -- Dual pane mode - route to specific array
    if paneType == some ("deadloop") then
      { st with deadloopMessages := st.deadloopMessages ++ [message] }
    else if paneType == some ("interactive") then
      { st with interactiveMessages := st.interactiveMessages ++ [message] }
    else
      -- Unknown pane type, add to main messages
      { st with messages := st.messages ++ [message] }
  else
    -- Single pane mode - add to main messages
    { st with messages := st.messages ++ [message] }

/-- The cross-session guard of the `user_input` / `stream_message` cases:
`msgSessionId && currentSessionId && msgSessionId !== currentSessionId`. -/
def sessionGuardBlocks (msgSessionId currentSessionId : Option String) : Bool :=
  truthyS msgSessionId && truthyS currentSessionId && msgSessionId != currentSessionId

/-- `handleServerMessage`, case `"user_input"`. -/
def handleUserInput (msgSessionId : Option String) (text : String)
    (paneType : Option String) (newId : String) (now : Nat) (st : AppState) : AppState :=
  if sessionGuardBlocks msgSessionId st.sessionId then st
  else
    addMessageWithPaneRouting
      { id := newId, role := "user", content := text, timestamp := now,
        outputType := OutputType.text }
      paneType st

/-- One element of `message.content` in a `stream_message` payload. -/
inductive ContentBlock where
  | text (text : String)
  | toolUse (name : String) (inputJson : String)
  | other
  deriving DecidableEq, Repr

/-- The `data.message` of a `stream_message` event.  The cost is carried as
the already-formatted `toFixed(4)` string and the duration as its printed
form (both platform-formatting outputs, see the module docstring). -/
inductive StreamPayload where
  | assistant (content : Option (List ContentBlock))
  | result (subtype : String) (costFixed4 : String) (durationMs : String)
  | other
  deriving DecidableEq, Repr

/-- The `Message` built from the `k`-th block of an assistant payload
(`text` and `tool_use` blocks produce entries, other blocks are skipped). -/
def blockEntry (genId : Nat → String) (now k : Nat) : ContentBlock → Option Message
  | ContentBlock.text s =>
      some { id := genId k, role := "assistant", content := s, timestamp := now,
             outputType := OutputType.text }
  | ContentBlock.toolUse name inputJson =>
      some { id := genId k, role := "assistant",
             content := "Using " ++ name ++ ": " ++ inputJson,
             timestamp := now, outputType := OutputType.toolUse name inputJson }
  | ContentBlock.other => none

/-- The entries a `stream_message` payload contributes, in source order. -/
def streamEntries (payload : StreamPayload) (genId : Nat → String) (now : Nat) :
    List Message :=
  match payload with
  | StreamPayload.assistant none => []
  | StreamPayload.assistant (some blocks) =>
      blocks.enum.filterMap fun p => blockEntry genId now p.1 p.2
  | StreamPayload.result subtype costFixed4 durationMs =>
      [{ id := genId 0, role := "system",
         content := subtype ++ " - Cost: $" ++ costFixed4 ++ ", Duration: "
           ++ durationMs ++ "ms",
         timestamp := now, outputType := OutputType.system }]
  | StreamPayload.other => []

/-- `handleServerMessage`, case `"stream_message"`. -/
def handleStreamMessage (msgSessionId : Option String) (paneType : Option String)
    (payload : Option StreamPayload) (genId : Nat → String) (now : Nat)
    (st : AppState) : AppState :=
  if sessionGuardBlocks msgSessionId st.sessionId then st
  else
    match payload with
    | none => st
    | some p =>
        (streamEntries p genId now).foldl
          (fun s m => addMessageWithPaneRouting m paneType s) st

/-- `addMessage` from `store.ts`. -/
def addMessage (message : Message) (st : AppState) : AppState :=
  { st with messages := st.messages ++ [message] }

/-- `prependMessages` from `store.ts`. -/
def prependMessages (newMessages : List Message) (hasMore : Bool)
    (st : AppState) : AppState :=
  { st with messages := newMessages ++ st.messages,
            hasMoreMessages := hasMore,
            isLoadingMore := false }

/-- `attachSession` from `store.ts`. -/
def attachSession (sessionId : String) (st : AppState) : AppState × Effects :=
  if !st.wsOpen then (st, Effects.noEff)
  else
    -- Only reset state when switching to a different session
    let isSameSession := st.sessionId == some sessionId
    let st :=
      if !isSameSession then
        { st with messages := [], deadloopMessages := [], interactiveMessages := [],
                  isDualPane := false, isAttached := true }
      else
        -- Re-attaching to same session - preserve dual pane state
        { st with isAttached := true }
    (st, { sent := [Command.attachSession sessionId] })

/-- `loadSessionMessages` from `store.ts`. -/
def loadSessionMessages (sessionId : String) (st : AppState) : AppState × Effects :=
  if !st.wsOpen then (st, Effects.noEff)
  else
    ({ st with sessionId := some sessionId, messages := [], deadloopMessages := [],
               interactiveMessages := [], isDualPane := false, isAttached := false },
     { sent := [Command.getSessionMessages sessionId none none] })

/-- The oldest-message scan of `loadMoreMessages`: JavaScript
`reduce((oldest, msg) => msg.timestamp < oldest.timestamp ? msg : oldest)`
over a non-empty array, the first element seeding the accumulator. -/
def findOldest (oldest : Message) : List Message → Message
  | [] => oldest
  | m :: ms => findOldest (if m.timestamp < oldest.timestamp then m else oldest) ms

/-- `loadMoreMessages` from `store.ts`. -/
def loadMoreMessages (st : AppState) : AppState × Effects :=
  if !st.wsOpen then (st, Effects.noEff)
  else if !truthyS st.sessionId || st.isLoadingMore || !st.hasMoreMessages then
    (st, Effects.noEff)
  else
    -- Find the oldest message across all arrays
    let allMessages :=
      if st.isDualPane then st.messages ++ st.deadloopMessages ++ st.interactiveMessages
      else st.messages
    match allMessages, st.sessionId with
    | [], _ => (st, Effects.noEff)
    | m :: ms, some sid =>
        let oldestMessage := findOldest m ms
        ({ st with isLoadingMore := true },
         { sent := [Command.getSessionMessages sid (some 50) (some oldestMessage.id)] })
    | _ :: _, none => (st, Effects.noEff)  -- unreachable: the truthiness guard above

/-- `connect` from `store.ts`: reads the stored credential and returns if it
is falsy (`if (!token) return` — a missing or empty-string token alike);
otherwise clears a pending reconnect timer, opens a fresh transport (whose
`onopen` callback is `wsOnOpen` below) and registers the visibility handler.
There is no guard against an already-live connection in the source. -/
def connect (st : AppState) : AppState × Effects :=
  if !truthyS st.storedToken then (st, Effects.noEff)
  else
    let st := { st with reconnectTimeout := false }
    let st := { st with hasWs := true, wsOpen := false }
    let st := { st with visibilityHandler := true }
    (st, { openedTransport := true })

/-- The `ws.onopen` callback installed by `connect`; `tok` is the credential
the closure captured when `connect` read `localStorage`.  The environment has
moved the socket to `OPEN` when the callback fires. -/
def wsOnOpen (tok : String) (st : AppState) : AppState × Effects :=
  ({ st with wsOpen := true, reconnectAttempts := 0 },
   { sent := [Command.authenticate tok] })

/-- The `ws.onclose` callback installed by `connect`: resets the connection
fields, then schedules a reconnect with exponential backoff unless the close
code is the normal code 1000 or the attempt budget is exhausted. -/
def wsOnClose (code : Nat) (st : AppState) : AppState × Effects :=
  let st := { st with connected := false, hasWs := false, wsOpen := false,
                      cliClients := [] }
  if code ≠ 1000 then
    let maxAttempts := 10
    if st.reconnectAttempts < maxAttempts then
      -- Exponential backoff: 1s, 2s, 4s, 8s, 16s, max 30s
      let delay := min (1000 * 2 ^ st.reconnectAttempts) 30000
      ({ st with reconnectTimeout := true }, { scheduledReconnect := some delay })
    else
      (st, Effects.noEff)
  else
    (st, Effects.noEff)

/-- The body of the `setTimeout` scheduled by `wsOnClose`; `captured` is the
attempt counter the closure captured at close time. -/
def reconnectTimerFired (captured : Nat) (st : AppState) : AppState × Effects :=
  connect { st with reconnectAttempts := captured + 1 }

/-- `handleServerMessage`, case `"authentication_failed"`: clears the stored
credential and the in-memory auth state; sends nothing, opens nothing and
schedules nothing. -/
def handleAuthFailed (st : AppState) : AppState × Effects :=
  let st := { st with storedToken := none, storedUserId := none }
  ({ st with connected := false, isAuthenticated := false, token := none,
             userId := none },
   Effects.noEff)

/-- `handleServerMessage`, case `"session_started"`. -/
def handleSessionStarted (sessionId : String) (st : AppState) : AppState :=
  { st with sessionId := some sessionId }

/-- One row of a `session_messages` response.  `toolJson` carries the result
of `JSON.parse(content)` for a `tool_use` row as `(name, stringified input)`;
`resultJson` carries it for a `tool_result` row as
`(tool_use_id, content field, is_error)`; `none` models a failed parse. -/
structure HistoryRow where
  id : String
  role : String
  content : String
  createdAt : Option Nat
  messageType : Option String
  paneType : Option String
  toolJson : Option (String × String)
  resultJson : Option (String × Option String × Bool)
  deriving DecidableEq, Repr

/-- The per-row parse of the `session_messages` handler, rebuilding the
`outputType` and display content from `message_type`. -/
def parseRow (now : Nat) (r : HistoryRow) : Message :=
  let messageType :=
    match r.messageType with
    | some s => if s == "" then ("text") else s
    | none => "text"
  let base : OutputType → String → Message := fun ot dc =>
    { id := r.id, role := r.role, content := dc,
      timestamp := r.createdAt.getD now, outputType := ot }
  if messageType == "tool_use" then
    match r.toolJson with
    | some (name, inputJson) =>
        base (OutputType.toolUse name inputJson) ("Using " ++ name ++ ": " ++ inputJson)
    | none => base OutputType.text r.content
  else if messageType == "tool_result" then
    match r.resultJson with
    | some (toolUseId, contentOpt, isError) =>
        let dc :=
          match contentOpt with
          | some c => if c == "" then r.content else c
          | none => r.content
        base (OutputType.toolResult toolUseId (!isError)) dc
    | none => base OutputType.text r.content
  else if messageType == "result" || messageType == "system" then
    base OutputType.system r.content
  else
    base OutputType.text r.content

/-- `messages.some((m) => m.pane_type)` of the `session_messages` handler. -/
def hasPaneTag (rows : List HistoryRow) : Bool :=
  rows.any fun r => truthyS r.paneType

/-- One iteration of the per-pane split loop of the `session_messages`
handler: push the row's parsed message into the sub-batch of its pane
(sub-batch order: deadloop, interactive, main). -/
def routeStep (now : Nat) (acc : List Message × List Message × List Message)
    (r : HistoryRow) : List Message × List Message × List Message :=
  let msg := parseRow now r
  if r.paneType == some ("deadloop") then (acc.1 ++ [msg], acc.2.1, acc.2.2)
  else if r.paneType == some ("interactive") then (acc.1, acc.2.1 ++ [msg], acc.2.2)
  else (acc.1, acc.2.1, acc.2.2 ++ [msg])

/-- The per-pane split loop of the `session_messages` handler: one pass over
the rows, pushing each row's parsed message into the sub-batch of its pane. -/
def routeRows (now : Nat) (rows : List HistoryRow) :
    List Message × List Message × List Message :=
  rows.foldl (routeStep now) ([], [], [])

/-- `handleServerMessage`, case `"session_messages"`. -/
def handleSessionMessages (sessionId : String) (rows : List HistoryRow)
    (hasMore : Bool) (now : Nat) (st : AppState) : AppState :=
  -- Check if any messages have pane_type - if so, enable dual pane
  let st := if hasPaneTag rows then { st with isDualPane := true } else st
  let parsedMessages := rows.map (parseRow now)
  -- Check if this is a "load more" request (prepend) or initial load (replace)
  if st.isLoadingMore then
    if st.isDualPane || hasPaneTag rows then
      let split := routeRows now rows
      { st with messages := split.2.2 ++ st.messages,
                deadloopMessages := split.1 ++ st.deadloopMessages,
                interactiveMessages := split.2.1 ++ st.interactiveMessages,
                hasMoreMessages := hasMore,
                isLoadingMore := false }
    else
      prependMessages parsedMessages hasMore st
  else if st.isDualPane || hasPaneTag rows then
    let split := routeRows now rows
    { st with sessionId := some sessionId,
              messages := split.2.2,
              deadloopMessages := split.1,
              interactiveMessages := split.2.1,
              hasMoreMessages := hasMore,
              isDualPane := true }
  else
    { st with sessionId := some sessionId,
              messages := parsedMessages,
              hasMoreMessages := hasMore }

/-- Boolean check that a message list is non-decreasing in `timestamp`. -/
def tsSortedB : List Message → Bool
  | [] => true
  | [_] => true
  | a :: b :: rest => (a.timestamp ≤ b.timestamp) && tsSortedB (b :: rest)

/-! Helper lemmas. -/

theorem route_eq (m : Message) (tag : Option String) (st : AppState) :
    addMessageWithPaneRouting m tag st =
      appendToPane { st with isDualPane := st.isDualPane || truthyS tag }
        (routeDest tag) m := by
  cases tag with
  | none =>
      cases hd : st.isDualPane <;>
        simp [addMessageWithPaneRouting, truthyS, routeDest, appendToPane, hd]
  | some s =>
      by_cases hs : s = ""
      · subst hs
        cases hd : st.isDualPane <;>
          simp [addMessageWithPaneRouting, truthyS, routeDest, appendToPane, hd]
      · by_cases h1 : s = "deadloop"
        · subst h1
          cases hd : st.isDualPane <;>
            simp [addMessageWithPaneRouting, truthyS, routeDest, appendToPane, hd]
        · by_cases h2 : s = "interactive"
          · subst h2
            cases hd : st.isDualPane <;>
              simp [addMessageWithPaneRouting, truthyS, routeDest, appendToPane, hd]
          · cases hd : st.isDualPane <;>
              simp [addMessageWithPaneRouting, truthyS, routeDest, appendToPane, hd,
                hs, h1, h2]

theorem routeDest_deadloop_beq (tag : Option String) :
    (routeDest tag == Dest.deadloop) = (tag == some ("deadloop")) := by
  by_cases h1 : tag = some ("deadloop")
  · simp [routeDest, h1]
  · by_cases h2 : tag = some ("interactive") <;> simp [routeDest, h1, h2]

theorem routeDest_interactive_beq (tag : Option String) :
    (routeDest tag == Dest.interactive) = (tag == some ("interactive")) := by
  by_cases h1 : tag = some ("deadloop")
  · simp [routeDest, h1]
  · by_cases h2 : tag = some ("interactive") <;> simp [routeDest, h1, h2]

theorem routeDest_main_beq (tag : Option String) :
    (routeDest tag == Dest.main) =
      (!(tag == some ("deadloop")) && !(tag == some ("interactive"))) := by
  by_cases h1 : tag = some ("deadloop")
  · simp [routeDest, h1]
  · by_cases h2 : tag = some ("interactive") <;> simp [routeDest, h1, h2]

theorem routeRows_go (now : Nat) (rows : List HistoryRow)
    (acc : List Message × List Message × List Message) :
    rows.foldl (routeStep now) acc =
    (acc.1 ++ (rows.filter fun r => r.paneType == some ("deadloop")).map (parseRow now),
     acc.2.1 ++ (rows.filter fun r => r.paneType == some ("interactive")).map (parseRow now),
     acc.2.2 ++ (rows.filter fun r =>
         !(r.paneType == some ("deadloop")) && !(r.paneType == some ("interactive"))).map
       (parseRow now)) := by
  induction rows generalizing acc with
  | nil => simp
  | cons r rows ih =>
      rw [List.foldl_cons, ih]
      by_cases h1 : r.paneType = some ("deadloop")
      · simp [routeStep, h1]
      · by_cases h2 : r.paneType = some ("interactive") <;> simp [routeStep, h1, h2]

/-- The per-pane split of a history batch keeps, for each pane, exactly the
rows the routing rule sends there, in batch order. -/
theorem routeRows_eq (now : Nat) (rows : List HistoryRow) :
    routeRows now rows =
      ((rows.filter fun r => routeDest r.paneType == Dest.deadloop).map (parseRow now),
       (rows.filter fun r => routeDest r.paneType == Dest.interactive).map (parseRow now),
       (rows.filter fun r => routeDest r.paneType == Dest.main).map (parseRow now)) := by
  have hdl : (fun r : HistoryRow => routeDest r.paneType == Dest.deadloop) =
      (fun r : HistoryRow => r.paneType == some ("deadloop")) :=
    funext fun r => routeDest_deadloop_beq r.paneType
  have hit : (fun r : HistoryRow => routeDest r.paneType == Dest.interactive) =
      (fun r : HistoryRow => r.paneType == some ("interactive")) :=
    funext fun r => routeDest_interactive_beq r.paneType
  have hmn : (fun r : HistoryRow => routeDest r.paneType == Dest.main) =
      (fun r : HistoryRow =>
        !(r.paneType == some ("deadloop")) && !(r.paneType == some ("interactive"))) :=
    funext fun r => routeDest_main_beq r.paneType
  rw [routeRows, hdl, hit, hmn, routeRows_go]
  simp

theorem findOldest_mem (a : Message) (l : List Message) :
    findOldest a l ∈ a :: l := by
  induction l generalizing a with
  | nil => simp [findOldest]
  | cons m ms ih =>
      rw [findOldest]
      rcases List.mem_cons.mp (ih (if m.timestamp < a.timestamp then m else a)) with h | h
      · rw [h]
        split <;> simp
      · simp [h]

theorem findOldest_le (l : List Message) :
    ∀ (a : Message), ∀ x ∈ a :: l, (findOldest a l).timestamp ≤ x.timestamp := by
  induction l with
  | nil =>
      intro a x hx
      have hxa : x = a := by simpa using hx
      subst hxa
      simp [findOldest]
  | cons m ms ih =>
      intro a x hx
      rw [findOldest]
      have hba : (if m.timestamp < a.timestamp then m else a).timestamp ≤ a.timestamp := by
        split <;> omega
      have hbm : (if m.timestamp < a.timestamp then m else a).timestamp ≤ m.timestamp := by
        split <;> omega
      have hself := ih (if m.timestamp < a.timestamp then m else a)
        (if m.timestamp < a.timestamp then m else a) (List.mem_cons_self _ _)
      rcases List.mem_cons.mp hx with h | h
      · subst h
        exact le_trans hself hba
      · rcases List.mem_cons.mp h with h' | h'
        · subst h'
          exact le_trans hself hbm
        · exact ih (if m.timestamp < a.timestamp then m else a) x
            (List.mem_cons_of_mem _ h')

theorem tsSortedB_cons (a : Message) (l : List Message)
    (h : tsSortedB (a :: l) = true) : tsSortedB l = true := by
  cases l with
  | nil => rfl
  | cons b l' =>
      rw [tsSortedB] at h
      have hh : a.timestamp ≤ b.timestamp ∧ tsSortedB (b :: l') = true := by
        simpa using h
      exact hh.2

theorem tsSortedB_append (l1 l2 : List Message)
    (h1 : tsSortedB l1 = true) (h2 : tsSortedB l2 = true)
    (h : ∀ x ∈ l1, ∀ y ∈ l2, x.timestamp ≤ y.timestamp) :
    tsSortedB (l1 ++ l2) = true := by
  induction l1 with
  | nil => simpa using h2
  | cons a l ih =>
      cases l with
      | nil =>
          cases l2 with
          | nil => simp [tsSortedB]
          | cons b l2' =>
              have hab : a.timestamp ≤ b.timestamp := by
                exact h a (by simp) b (by simp)
              simpa [tsSortedB, hab] using h2
      | cons a' l' =>
          have steps : a.timestamp ≤ a'.timestamp ∧ tsSortedB (a' :: l') = true := by
            rw [tsSortedB] at h1
            simpa using h1
          have htail := ih steps.2
            (fun x hx y hy => h x (List.mem_cons_of_mem _ hx) y hy)
          rw [List.cons_append] at htail ⊢
          simp [tsSortedB, steps.1, htail]

/-! Concrete fixtures used by counterexamples and witnesses. -/

/-- A minimal message with the given id and timestamp. -/
def mkMsg (i : String) (t : Nat) : Message :=
  { id := i, role := "user", content := "", timestamp := t,
    outputType := OutputType.text }

/-- A state tracking the degenerate (but non-null) session id `""`. -/
def c1State : AppState := { sessionId := some ("") }

/-- A live, attached-capable state tracking session id `"a"`. -/
def c3State : AppState :=
  { wsOpen := true, hasWs := true, sessionId := some ("a"),
    messages := [mkMsg ("m0") 1], isDualPane := true }

/-! Claim theorems. -/

/-- Claim C1, counterexample: with the tracked session id the non-null empty
string and an inbound `user_input` carrying session id `"b"` (non-null and
distinct), the event is NOT discarded — the main pane changes — because the
guard `msgSessionId && currentSessionId && ...` treats the empty string as
absent.  This refutes the claim as stated for non-null but empty ids. -/
theorem claim_C1_counterexample :
    c1State.sessionId = some ("") ∧
    some ("") ≠ (none : Option String) ∧
    ("" : String) ≠ ("b" : String) ∧
    (handleUserInput (some ("b")) ("hello") (none) ("id1") 7 c1State).messages ≠
      c1State.messages := by
  decide

/-- Claim C1, amended: for every inbound live-push event (`stream_message` or
`user_input`) carrying a session id `b` while the tracked session id is `a`,
with `a` and `b` non-null, NON-EMPTY and distinct, processing the event
changes nothing: the whole state — in particular the main, deadloop and
interactive message sequences — is left exactly as it was. -/
theorem claim_C1_amended (st : AppState) (a b : String)
    (hcur : st.sessionId = some a) (ha : a ≠ "") (hb : b ≠ "") (hab : a ≠ b) :
    (∀ text paneType newId now,
        handleUserInput (some b) text paneType newId now st = st) ∧
    (∀ paneType payload genId now,
        handleStreamMessage (some b) paneType payload genId now st = st) := by
  have hba : b ≠ a := Ne.symm hab
  have hguard : sessionGuardBlocks (some b) st.sessionId = true := by
    rw [hcur]
    simp [sessionGuardBlocks, truthyS, ha, hb, hba]
  constructor
  · intro text paneType newId now
    simp [handleUserInput, hguard]
  · intro paneType payload genId now
    simp [handleStreamMessage, hguard]

/-- Claim C1, witness for the amended theorem at concrete distinct non-empty
session ids. -/
theorem claim_C1_witness :
    (handleUserInput (some ("b1")) ("t") (none) ("i1") 0
        { initialState with sessionId := some ("a1") } =
      { initialState with sessionId := some ("a1") }) ∧
    (handleStreamMessage (some ("b1")) (none) (none) (fun _ => "g") 0
        { initialState with sessionId := some ("a1") } =
      { initialState with sessionId := some ("a1") }) := by
  have h := claim_C1_amended { initialState with sessionId := some ("a1") }
    ("a1") ("b1") rfl (by decide) (by decide) (by decide)
  exact ⟨h.1 ("t") (none) ("i1") 0, h.2 (none) (none) (fun _ => "g") 0⟩

/-- Claim C2: after a transport close whose code is not 1000, the scheduled
reconnect delay at attempt counter `n` is `min (1000 * 2 ^ n) 30000` — 1000,
2000, 4000, 8000, 16000 ms for `n = 0..4` and 30000 ms for every scheduled
`n ≥ 5` — nothing is scheduled once the counter has reached 10, and the
counter is incremented (to the captured value plus one) when a scheduled
attempt fires. -/
theorem claim_C2 (st : AppState) (code : Nat) (hcode : code ≠ 1000) :
    ((wsOnClose code st).2.scheduledReconnect =
        if st.reconnectAttempts < 10 then
          some (min (1000 * 2 ^ st.reconnectAttempts) 30000)
        else none) ∧
    (st.reconnectAttempts = 0 →
        (wsOnClose code st).2.scheduledReconnect = some 1000) ∧
    (st.reconnectAttempts = 1 →
        (wsOnClose code st).2.scheduledReconnect = some 2000) ∧
    (st.reconnectAttempts = 2 →
        (wsOnClose code st).2.scheduledReconnect = some 4000) ∧
    (st.reconnectAttempts = 3 →
        (wsOnClose code st).2.scheduledReconnect = some 8000) ∧
    (st.reconnectAttempts = 4 →
        (wsOnClose code st).2.scheduledReconnect = some 16000) ∧
    (5 ≤ st.reconnectAttempts → st.reconnectAttempts < 10 →
        (wsOnClose code st).2.scheduledReconnect = some 30000) ∧
    (10 ≤ st.reconnectAttempts →
        (wsOnClose code st).2.scheduledReconnect = none) ∧
    (∀ captured st2, (reconnectTimerFired captured st2).1.reconnectAttempts =
        captured + 1) := by
  have hbase : (wsOnClose code st).2.scheduledReconnect =
      if st.reconnectAttempts < 10 then
        some (min (1000 * 2 ^ st.reconnectAttempts) 30000)
      else none := by
    simp only [wsOnClose, if_pos hcode]
    split <;> simp [Effects.noEff]
  refine ⟨hbase, ?_, ?_, ?_, ?_, ?_, ?_, ?_, ?_⟩
  · intro h; rw [hbase, h]; norm_num
  · intro h; rw [hbase, h]; norm_num
  · intro h; rw [hbase, h]; norm_num
  · intro h; rw [hbase, h]; norm_num
  · intro h; rw [hbase, h]; norm_num
  · intro h5 h10
    rw [hbase, if_pos h10]
    have h32 : (32 : Nat) ≤ 2 ^ st.reconnectAttempts := by
      calc (32 : Nat) = 2 ^ 5 := by norm_num
        _ ≤ 2 ^ st.reconnectAttempts := Nat.pow_le_pow_right (by norm_num) h5
    have hge : (30000 : Nat) ≤ 1000 * 2 ^ st.reconnectAttempts := by nlinarith
    rw [min_eq_right hge]
  · intro h
    rw [hbase, if_neg (by omega)]
  · intro captured st2
    cases h : st2.storedToken with
    | none => simp [reconnectTimerFired, connect, truthyS, h]
    | some s =>
        by_cases hs : s = "" <;>
          simp [reconnectTimerFired, connect, truthyS, h, hs]

/-- Claim C2, witness: a close with code 1006 at attempt counter 0 schedules
a 1000 ms reconnect. -/
theorem claim_C2_witness :
    (wsOnClose 1006 initialState).2.scheduledReconnect = some 1000 :=
  (claim_C2 initialState 1006 (by decide)).2.1 rfl

/-- Claim C3, counterexample: attaching to a session id different from the
tracked one marks the view ATTACHED (`isAttached := true`), not not-attached
as the claim states. -/
theorem claim_C3_counterexample :
    c3State.wsOpen = true ∧
    c3State.sessionId = some ("a") ∧
    some ("a") ≠ some ("b") ∧
    (attachSession ("b") c3State).1.isAttached = true := by
  decide

/-- Claim C3, amended: with the socket open, `attachSession target` with a
target different from the tracked id clears all three pane arrays, resets
dual-pane mode and marks the view ATTACHED before sending the
`attach_session` command; with the same id it only asserts the attached flag,
preserving every pane and the dual-pane flag. -/
theorem claim_C3_amended (st : AppState) (target : String) (hws : st.wsOpen = true) :
    (st.sessionId ≠ some target →
        attachSession target st =
          ({ st with messages := [], deadloopMessages := [], interactiveMessages := [],
                     isDualPane := false, isAttached := true },
           ({ sent := [Command.attachSession target] } : Effects))) ∧
    (st.sessionId = some target →
        attachSession target st =
          ({ st with isAttached := true },
           ({ sent := [Command.attachSession target] } : Effects))) := by
  constructor
  · intro h
    simp [attachSession, hws, h]
  · intro h
    simp [attachSession, hws, h]

/-- Claim C3, witness for the amended theorem: attaching to `"b"` while
tracking `"a"` clears the panes and asserts the attached flag. -/
theorem claim_C3_witness :
    attachSession ("b") c3State =
      ({ c3State with messages := [], deadloopMessages := [], interactiveMessages := [],
                      isDualPane := false, isAttached := true },
       ({ sent := [Command.attachSession ("b")] } : Effects)) :=
  (claim_C3_amended c3State ("b") rfl).1 (by decide)

/-- A fully live state (open authenticated socket) with a stored credential. -/
def c4State : AppState :=
  { storedToken := some ("tok"), token := some ("tok"), isAuthenticated := true,
    connected := true, hasWs := true, wsOpen := true }

/-- Claim C4, counterexample: calling `connect()` while a connection is live
is NOT a no-op — the source has no guard against an existing connection — it
opens a new transport and replaces the socket handle. -/
theorem claim_C4_counterexample :
    c4State.connected = true ∧ c4State.wsOpen = true ∧ c4State.hasWs = true ∧
    (connect c4State).2.openedTransport = true ∧
    (connect c4State).1 ≠ c4State := by
  decide

/-- Claim C4, amended: `connect()` never checks the existing connection.
Whenever a stored non-empty credential is present — even while a connection
is live — it opens a fresh transport (clearing any pending reconnect timer,
replacing the socket handle, registering the visibility handler) and on
transport open sends an `authenticate` command carrying the stored token;
when the stored credential is falsy (missing, or the empty string, which the
source's `if (!token) return` treats like a missing one) it does nothing. -/
theorem claim_C4_amended (st : AppState) (t : String)
    (ht : st.storedToken = some t) (hnz : t ≠ "") :
    (connect st).2.openedTransport = true ∧
    (connect st).1 = { st with reconnectTimeout := false, hasWs := true,
                               wsOpen := false, visibilityHandler := true } ∧
    (wsOnOpen t (connect st).1).2.sent = [Command.authenticate t] ∧
    (∀ st2, truthyS st2.storedToken = false → connect st2 = (st2, Effects.noEff)) := by
  have htr : truthyS st.storedToken = true := by
    rw [ht]; simp [truthyS, hnz]
  constructor
  · simp [connect, htr]
  constructor
  · simp [connect, htr]
  constructor
  · simp [wsOnOpen]
  · intro st2 h2
    simp [connect, h2]

/-- Claim C4, witness for the amended theorem: a live state with a stored
credential still opens a transport. -/
theorem claim_C4_witness :
    (connect c4State).2.openedTransport = true :=
  (claim_C4_amended c4State ("tok") rfl (by decide)).1

/-- Claim C5: on `authentication_failed` the stored credential (token and
user id, in storage and in memory) is cleared, the state becomes disconnected
and unauthenticated, the handler sends nothing, opens nothing and schedules
no reconnect, and a subsequent `connect()` on the resulting state opens no
transport (the credential is gone). -/
theorem claim_C5 (st : AppState) :
    (handleAuthFailed st).1.storedToken = none ∧
    (handleAuthFailed st).1.storedUserId = none ∧
    (handleAuthFailed st).1.token = none ∧
    (handleAuthFailed st).1.userId = none ∧
    (handleAuthFailed st).1.connected = false ∧
    (handleAuthFailed st).1.isAuthenticated = false ∧
    (handleAuthFailed st).2 = Effects.noEff ∧
    connect (handleAuthFailed st).1 = ((handleAuthFailed st).1, Effects.noEff) := by
  refine ⟨rfl, rfl, rfl, rfl, rfl, rfl, rfl, ?_⟩
  simp [connect, handleAuthFailed, truthyS]

/-- Claim C6: with the socket open, a non-empty tracked session id, no load
in flight, more history available and a non-empty scanned pane set (the main
sequence alone, or main plus both dual panes in dual-pane mode),
`loadMoreMessages` sends exactly one `get_session_messages` command whose
`before_id` is the id of an entry of globally minimal timestamp across the
scanned panes, and only sets the loading flag. -/
theorem claim_C6 (st : AppState) (sid : String)
    (hws : st.wsOpen = true) (hsid : st.sessionId = some sid) (hnz : sid ≠ "")
    (hlm : st.isLoadingMore = false) (hmore : st.hasMoreMessages = true)
    (hpop : (if st.isDualPane then
        st.messages ++ st.deadloopMessages ++ st.interactiveMessages
      else st.messages) ≠ []) :
    ∃ oldest,
      oldest ∈ (if st.isDualPane then
          st.messages ++ st.deadloopMessages ++ st.interactiveMessages
        else st.messages) ∧
      (∀ x ∈ (if st.isDualPane then
          st.messages ++ st.deadloopMessages ++ st.interactiveMessages
        else st.messages), oldest.timestamp ≤ x.timestamp) ∧
      (loadMoreMessages st).2.sent =
        [Command.getSessionMessages sid (some 50) (some oldest.id)] ∧
      (loadMoreMessages st).1 = { st with isLoadingMore := true } := by
  have hts : truthyS (some sid) = true := by
    simp [truthyS, hnz]
  rcases hm : (if st.isDualPane then
      st.messages ++ st.deadloopMessages ++ st.interactiveMessages
    else st.messages) with _ | ⟨m, ms⟩
  · exact absurd hm hpop
  · have hred : loadMoreMessages st =
        ({ st with isLoadingMore := true },
         ({ sent := [Command.getSessionMessages sid (some 50)
             (some (findOldest m ms).id)] } : Effects)) := by
      simp only [loadMoreMessages, hws, hsid, hts, hlm, hmore, hm]
      simp
    refine ⟨findOldest m ms, ?_, ?_, ?_, ?_⟩
    · exact findOldest_mem m ms
    · exact findOldest_le ms m
    · rw [hred]
    · rw [hred]

/-- A dual-pane state whose globally oldest entry sits in the deadloop pane. -/
def c6State : AppState :=
  { wsOpen := true, sessionId := some ("s"), hasMoreMessages := true,
    isDualPane := true,
    messages := [mkMsg ("m2") 5, mkMsg ("m3") 7],
    deadloopMessages := [mkMsg ("m1") 2],
    interactiveMessages := [] }

/-- Claim C6, witness at a concrete dual-pane state. -/
theorem claim_C6_witness :
    ∃ oldest,
      oldest ∈ (if c6State.isDualPane then
          c6State.messages ++ c6State.deadloopMessages ++ c6State.interactiveMessages
        else c6State.messages) ∧
      (∀ x ∈ (if c6State.isDualPane then
          c6State.messages ++ c6State.deadloopMessages ++ c6State.interactiveMessages
        else c6State.messages), oldest.timestamp ≤ x.timestamp) ∧
      (loadMoreMessages c6State).2.sent =
        [Command.getSessionMessages ("s") (some 50) (some oldest.id)] ∧
      (loadMoreMessages c6State).1 = { c6State with isLoadingMore := true } :=
  claim_C6 c6State ("s") rfl rfl (by decide) rfl rfl (by decide)

/-- Claim C7: live-push routing turns dual-pane mode on exactly when a
truthy pane tag arrives (idempotently — `isDualPane` becomes the old flag OR
the tag's presence) and appends the entry to the pane `routeDest` selects:
`deadloop` and `interactive` tags to their panes, an absent, empty or
unrecognized tag to the main sequence (never dropped; with no truthy tag the
single default sequence is used).  A paginated history page follows the same
per-entry rule: it is split into per-pane sub-batches — exactly the rows
`routeDest` sends to each pane, in batch order — and each pane receives a
single prepend of its sub-batch. -/
theorem claim_C7 (st : AppState) (m : Message) (tag : Option String)
    (rows : List HistoryRow) (sid : String) (hasMore : Bool) (now : Nat) :
    (addMessageWithPaneRouting m tag st =
        appendToPane { st with isDualPane := st.isDualPane || truthyS tag }
          (routeDest tag) m) ∧
    (routeDest (some ("deadloop")) = Dest.deadloop ∧
     routeDest (some ("interactive")) = Dest.interactive ∧
     (truthyS tag = false → routeDest tag = Dest.main) ∧
     (tag ≠ some ("deadloop") → tag ≠ some ("interactive") →
        routeDest tag = Dest.main)) ∧
    (st.isLoadingMore = true → (st.isDualPane || hasPaneTag rows) = true →
        (handleSessionMessages sid rows hasMore now st).deadloopMessages =
            ((rows.filter fun r => routeDest r.paneType == Dest.deadloop).map
              (parseRow now)) ++ st.deadloopMessages ∧
        (handleSessionMessages sid rows hasMore now st).interactiveMessages =
            ((rows.filter fun r => routeDest r.paneType == Dest.interactive).map
              (parseRow now)) ++ st.interactiveMessages ∧
        (handleSessionMessages sid rows hasMore now st).messages =
            ((rows.filter fun r => routeDest r.paneType == Dest.main).map
              (parseRow now)) ++ st.messages) := by
  refine ⟨route_eq m tag st, ⟨?_, ?_, ?_, ?_⟩, ?_⟩
  · simp [routeDest]
  · simp [routeDest]
  · intro h
    cases tag with
    | none => simp [routeDest]
    | some t =>
        have ht : t = "" := by simpa [truthyS] using h
        subst ht
        simp [routeDest]
  · intro h1 h2
    simp [routeDest, h1, h2]
  · intro hl hcond
    cases hpt : hasPaneTag rows with
    | true =>
        simp [handleSessionMessages, hpt, hl, routeRows_eq]
    | false =>
        have hdual : st.isDualPane = true := by simpa [hpt] using hcond
        simp [handleSessionMessages, hpt, hl, hdual, routeRows_eq]

/-- A plain-text history row with the given id, pane tag and timestamp. -/
def c7Row (i : String) (tagv : Option String) (t : Nat) : HistoryRow :=
  { id := i, role := "assistant", content := "c", createdAt := some t,
    messageType := some ("text"), paneType := tagv,
    toolJson := none, resultJson := none }

/-- A three-row history batch covering all three destinations. -/
def c7Rows : List HistoryRow :=
  [c7Row ("r1") (some ("deadloop")) 1, c7Row ("r2") (none) 2,
   c7Row ("r3") (some ("interactive")) 3]

/-- A dual-pane state in the middle of a load-more request. -/
def c7State : AppState :=
  { isLoadingMore := true, isDualPane := true, messages := [mkMsg ("x") 9] }

/-- Claim C7, witness: the history-page conjunct at a concrete batch. -/
theorem claim_C7_witness :
    (handleSessionMessages ("s") c7Rows true 0 c7State).deadloopMessages =
        ((c7Rows.filter fun r => routeDest r.paneType == Dest.deadloop).map
          (parseRow 0)) ++ c7State.deadloopMessages ∧
    (handleSessionMessages ("s") c7Rows true 0 c7State).interactiveMessages =
        ((c7Rows.filter fun r => routeDest r.paneType == Dest.interactive).map
          (parseRow 0)) ++ c7State.interactiveMessages ∧
    (handleSessionMessages ("s") c7Rows true 0 c7State).messages =
        ((c7Rows.filter fun r => routeDest r.paneType == Dest.main).map
          (parseRow 0)) ++ c7State.messages :=
  (claim_C7 c7State (mkMsg ("w") 0) (none) c7Rows ("s") true 0).2.2 rfl rfl

/-- Claim C8, counterexample: the store never inspects timestamps, so a
sequence of two appends with decreasing timestamps leaves the main pane NOT
non-decreasing in `createdAt`, refuting the unconditional invariant. -/
theorem claim_C8_counterexample :
    tsSortedB (addMessage (mkMsg ("m1") 1)
      (addMessage (mkMsg ("m2") 2) initialState)).messages = false := by
  decide

/-- Claim C8, amended: `prepend` always leaves the previously-loaded entries
unchanged as the suffix (it only extends the sequence backward), and the
per-pane sequence stays non-decreasing in timestamp provided the inputs
respect the order: an appended entry is no older than every current entry,
and a prepended batch is itself sorted and no newer than every current
entry. -/
theorem claim_C8_amended (st : AppState) (m : Message)
    (newMessages : List Message) (hasMore : Bool) :
    ((prependMessages newMessages hasMore st).messages = newMessages ++ st.messages) ∧
    (tsSortedB st.messages = true →
      (∀ x ∈ st.messages, x.timestamp ≤ m.timestamp) →
      tsSortedB (addMessage m st).messages = true) ∧
    (tsSortedB newMessages = true → tsSortedB st.messages = true →
      (∀ x ∈ newMessages, ∀ y ∈ st.messages, x.timestamp ≤ y.timestamp) →
      tsSortedB (prependMessages newMessages hasMore st).messages = true) := by
  refine ⟨rfl, ?_, ?_⟩
  · intro hs hle
    have hm1 : tsSortedB [m] = true := rfl
    have := tsSortedB_append st.messages [m] hs hm1
      (fun x hx y hy => by
        have hym : y = m := by simpa using hy
        subst hym
        exact hle x hx)
    simpa [addMessage] using this
  · intro hn hs hcross
    have := tsSortedB_append newMessages st.messages hn hs hcross
    simpa [prependMessages] using this

/-- A state holding a sorted two-entry main pane. -/
def c8State : AppState := { messages := [mkMsg ("a") 5, mkMsg ("b") 6] }

/-- Claim C8, witness for the amended theorem at concrete in-order inputs. -/
theorem claim_C8_witness :
    tsSortedB (addMessage (mkMsg ("c") 7) c8State).messages = true ∧
    tsSortedB (prependMessages [mkMsg ("p") 1] true c8State).messages = true :=
  ⟨(claim_C8_amended c8State (mkMsg ("c") 7) [] true).2.1 (by decide) (by decide),
   (claim_C8_amended c8State (mkMsg ("c") 7) [mkMsg ("p") 1] true).2.2
     (by decide) (by decide) (by decide)⟩

/-- Claim C9: when the tracked session id is null or the inbound live-push
event carries no session id, the discard guard does not apply: a `user_input`
event appends its user message via the routing rule (landing in the pane
`routeDest` selects), a `stream_message` event processes its payload's
entries through the same routing; and the guard blocks only when both ids
are present and differ. -/
theorem claim_C9 (st : AppState) (msgSid : Option String)
    (h : st.sessionId = none ∨ msgSid = none) :
    (∀ text paneType newId now,
        handleUserInput msgSid text paneType newId now st =
          addMessageWithPaneRouting
            { id := newId, role := "user", content := text, timestamp := now,
              outputType := OutputType.text } paneType st) ∧
    (∀ text paneType newId now,
        handleUserInput msgSid text paneType newId now st =
          appendToPane { st with isDualPane := st.isDualPane || truthyS paneType }
            (routeDest paneType)
            { id := newId, role := "user", content := text, timestamp := now,
              outputType := OutputType.text }) ∧
    (∀ paneType payload genId now,
        handleStreamMessage msgSid paneType payload genId now st =
          (match payload with
           | none => st
           | some p => (streamEntries p genId now).foldl
               (fun s mm => addMessageWithPaneRouting mm paneType s) st)) ∧
    (∀ x y : Option String, sessionGuardBlocks x y = true →
        x ≠ none ∧ y ≠ none ∧ x ≠ y) := by
  have hguard : sessionGuardBlocks msgSid st.sessionId = false := by
    rcases h with h | h <;> simp [sessionGuardBlocks, truthyS, h]
  refine ⟨?_, ?_, ?_, ?_⟩
  · intro text paneType newId now
    simp [handleUserInput, hguard]
  · intro text paneType newId now
    have h1 : handleUserInput msgSid text paneType newId now st =
        addMessageWithPaneRouting
          { id := newId, role := "user", content := text, timestamp := now,
            outputType := OutputType.text } paneType st := by
      simp [handleUserInput, hguard]
    rw [h1]
    exact route_eq _ paneType st
  · intro paneType payload genId now
    cases payload <;> simp [handleStreamMessage, hguard]
  · intro x y hxy
    cases x with
    | none => simp [sessionGuardBlocks, truthyS] at hxy
    | some a =>
        cases y with
        | none => simp [sessionGuardBlocks, truthyS] at hxy
        | some b =>
            simp [sessionGuardBlocks, truthyS] at hxy
            refine ⟨by simp, by simp, ?_⟩
            intro hc
            have hab : ¬ a = b := by tauto
            exact hab (Option.some.inj hc)

/-- Claim C9, witness: with no tracked session id, a tagged `user_input` is
routed, not discarded. -/
theorem claim_C9_witness :
    handleUserInput (none) ("t") (some ("deadloop")) ("i1") 4 initialState =
      addMessageWithPaneRouting
        { id := "i1", role := "user", content := "t", timestamp := 4,
          outputType := OutputType.text } (some ("deadloop")) initialState :=
  (claim_C9 initialState (none) (Or.inr rfl)).1 ("t") (some ("deadloop")) ("i1") 4

/-- Claim C10: `attachSession` never modifies the tracked session id, in
every branch (socket closed, different target, same target); the tracked id
is set by `session_started`, by the replace branches of `session_messages`
(those taken when no load-more is in flight — the prepend branches leave it
unchanged), and by `loadSessionMessages` when the socket is open. -/
theorem claim_C10 (st : AppState) (target sid : String) (rows : List HistoryRow)
    (hasMore : Bool) (now : Nat) :
    ((attachSession target st).1.sessionId = st.sessionId) ∧
    ((handleSessionStarted sid st).sessionId = some sid) ∧
    (st.isLoadingMore = false →
        (handleSessionMessages sid rows hasMore now st).sessionId = some sid) ∧
    (st.isLoadingMore = true →
        (handleSessionMessages sid rows hasMore now st).sessionId = st.sessionId) ∧
    (st.wsOpen = true → (loadSessionMessages sid st).1.sessionId = some sid) := by
  refine ⟨?_, rfl, ?_, ?_, ?_⟩
  · cases hws : st.wsOpen <;>
      by_cases hsame : st.sessionId == some target <;>
      simp [attachSession, hws, hsame]
  · intro h
    cases hpt : hasPaneTag rows <;>
      simp [handleSessionMessages, hpt, h, prependMessages] <;>
      split <;> simp
  · intro h
    cases hpt : hasPaneTag rows <;>
      simp [handleSessionMessages, hpt, h, prependMessages] <;>
      split <;> simp
  · intro h
    simp [loadSessionMessages, h]

/-- A connected state tracking session id `"a"`, used by the C10 witness. -/
def c10State : AppState := { wsOpen := true, sessionId := some ("a") }

/-- Claim C10, witness at concrete inputs: attach preserves the id, the
`session_started` and replace paths set it. -/
theorem claim_C10_witness :
    (attachSession ("b") c10State).1.sessionId = some ("a") ∧
    (handleSessionMessages ("s2") [] true 0 initialState).sessionId = some ("s2") ∧
    (loadSessionMessages ("s3") c10State).1.sessionId = some ("s3") :=
  ⟨((claim_C10 c10State ("b") ("s2") [] true 0).1).trans rfl,
   (claim_C10 initialState ("b") ("s2") [] true 0).2.2.1 rfl,
   (claim_C10 c10State ("b") ("s3") [] true 0).2.2.2.2 rfl⟩

end Apas
